import Mathlib

/-!
# Verification of the valu3 core (Number / Value / conversion traits / DateTime)

Shallow embedding of the valu3 library's core, translated from the Rust
sources `types/number.rs`, `value.rs`, `traits.rs` and `types/datetime.rs`.
Machine integers are modelled as `Nat` (unsigned) and `Int` (signed); the
wrapping behaviour of Rust `as` casts is made explicit where the source uses
them.  Floating-point payloads are modelled by `FVal`: a finite value kept as
an exact decimal `mant * 10 ^ exp`, plus the infinity and NaN states; no
claim below depends on IEEE rounding, only on which slot of a `Number` holds
a payload and on sign/zero tests at exactly representable values.
-/

namespace Valu3

/-- Model of a Rust `f32`/`f64` payload: a finite value (the exact decimal
`mant * 10 ^ exp`, unrounded), positive or negative infinity, or NaN. -/
inductive FVal where
  | finite (mant exp : Int)
  | inf
  | neginf
  | nan
  deriving DecidableEq, Repr

/-- `x < 0.0` on a float payload (IEEE semantics: NaN compares false,
`-0.0 < 0.0` is false; since `10 ^ exp > 0`, the sign is the mantissa's). -/
def FVal.isNeg : FVal → Bool
  | .finite m _ => m < 0
  | .inf => false
  | .neginf => true
  | .nan => false

/-- `x == 0.0` on a float payload (IEEE semantics: NaN compares false). -/
def FVal.isZero : FVal → Bool
  | .finite m _ => m = 0
  | .inf => false
  | .neginf => false
  | .nan => false

/-- The `Number` struct of `types/number.rs`: twelve optional slots, one per
concrete numeric kind.  Unsigned slots hold `Nat`, signed slots hold `Int`;
the machine ranges are imposed as hypotheses where a theorem needs them. -/
structure Number where
  u8 : Option Nat := none
  u16 : Option Nat := none
  u32 : Option Nat := none
  u64 : Option Nat := none
  u128 : Option Nat := none
  i8 : Option Int := none
  i16 : Option Int := none
  i32 : Option Int := none
  i64 : Option Int := none
  i128 : Option Int := none
  f32 : Option FVal := none
  f64 : Option FVal := none
  deriving DecidableEq, Repr

/-- The `NumberType` enum of `types/number.rs`. -/
inductive NumberType where
  | U8 | U16 | U32 | U64 | U128
  | I8 | I16 | I32 | I64 | I128
  | F32 | F64
  | Unknown
  deriving DecidableEq, Repr

namespace Number

/-- `Number::default()`: every slot empty. -/
def empty : Number := {}

/-- `Number::clean`: resets all twelve slots to empty (the returned `&mut self`
is modelled by returning the new state). -/
def clean (_n : Number) : Number :=
  { u8 := none, u16 := none, u32 := none, u64 := none, u128 := none,
    i8 := none, i16 := none, i32 := none, i64 := none, i128 := none,
    f32 := none, f64 := none }

def set_u8 (n : Number) (v : Nat) : Number := { n with u8 := some v }
def set_u16 (n : Number) (v : Nat) : Number := { n with u16 := some v }
def set_u32 (n : Number) (v : Nat) : Number := { n with u32 := some v }
def set_u64 (n : Number) (v : Nat) : Number := { n with u64 := some v }
def set_u128 (n : Number) (v : Nat) : Number := { n with u128 := some v }
def set_i8 (n : Number) (v : Int) : Number := { n with i8 := some v }
def set_i16 (n : Number) (v : Int) : Number := { n with i16 := some v }
def set_i32 (n : Number) (v : Int) : Number := { n with i32 := some v }
def set_i64 (n : Number) (v : Int) : Number := { n with i64 := some v }
def set_i128 (n : Number) (v : Int) : Number := { n with i128 := some v }
def set_f32 (n : Number) (v : FVal) : Number := { n with f32 := some v }
def set_f64 (n : Number) (v : FVal) : Number := { n with f64 := some v }

def get_u8 (n : Number) : Option Nat := n.u8
def get_u16 (n : Number) : Option Nat := n.u16
def get_u32 (n : Number) : Option Nat := n.u32
def get_u64 (n : Number) : Option Nat := n.u64
def get_u128 (n : Number) : Option Nat := n.u128
def get_i8 (n : Number) : Option Int := n.i8
def get_i16 (n : Number) : Option Int := n.i16
def get_i32 (n : Number) : Option Int := n.i32
def get_i64 (n : Number) : Option Int := n.i64
def get_i128 (n : Number) : Option Int := n.i128
def get_f32 (n : Number) : Option FVal := n.f32
def get_f64 (n : Number) : Option FVal := n.f64

def is_u8 (n : Number) : Bool := n.u8.isSome
def is_u16 (n : Number) : Bool := n.u16.isSome
def is_u32 (n : Number) : Bool := n.u32.isSome
def is_u64 (n : Number) : Bool := n.u64.isSome
def is_u128 (n : Number) : Bool := n.u128.isSome
def is_i8 (n : Number) : Bool := n.i8.isSome
def is_i16 (n : Number) : Bool := n.i16.isSome
def is_i32 (n : Number) : Bool := n.i32.isSome
def is_i64 (n : Number) : Bool := n.i64.isSome
def is_i128 (n : Number) : Bool := n.i128.isSome
def is_f32 (n : Number) : Bool := n.f32.isSome
def is_f64 (n : Number) : Bool := n.f64.isSome

/-- `Number::is_number`. -/
def is_number (n : Number) : Bool :=
  n.is_i8 || n.is_i16 || n.is_i32 || n.is_i64 || n.is_i128
    || n.is_u8 || n.is_u16 || n.is_u32 || n.is_u64 || n.is_u128
    || n.is_f32 || n.is_f64

/-- `Number::is_integer`. -/
def is_integer (n : Number) : Bool :=
  n.is_i8 || n.is_i16 || n.is_i32 || n.is_i64 || n.is_i128
    || n.is_u8 || n.is_u16 || n.is_u32 || n.is_u64 || n.is_u128

/-- `Number::is_float`. -/
def is_float (n : Number) : Bool := n.is_f32 || n.is_f64

/-- `Number::is_signed`: populated with a signed/float slot AND the value is
strictly negative.  The source's `self.i8.unwrap()` reads are modelled by
`Option.getD`; every read is guarded by the matching `is_` test, so the
default is never consulted. -/
def is_signed (n : Number) : Bool :=
  (n.is_i8 && n.i8.getD 0 < 0)
    || (n.is_i16 && n.i16.getD 0 < 0)
    || (n.is_i32 && n.i32.getD 0 < 0)
    || (n.is_i64 && n.i64.getD 0 < 0)
    || (n.is_i128 && n.i128.getD 0 < 0)
    || (n.is_f32 && (n.f32.getD .nan).isNeg)
    || (n.is_f64 && (n.f64.getD .nan).isNeg)

/-- `Number::is_unsigned`. -/
def is_unsigned (n : Number) : Bool :=
  n.is_u8 || n.is_u16 || n.is_u32 || n.is_u64 || n.is_u128

/-- `Number::is_zero`. -/
def is_zero (n : Number) : Bool :=
  (n.is_i8 && n.i8.getD 1 = 0)
    || (n.is_i16 && n.i16.getD 1 = 0)
    || (n.is_i32 && n.i32.getD 1 = 0)
    || (n.is_i64 && n.i64.getD 1 = 0)
    || (n.is_i128 && n.i128.getD 1 = 0)
    || (n.is_f32 && (n.f32.getD .nan).isZero)
    || (n.is_f64 && (n.f64.getD .nan).isZero)
    || (n.is_u8 && n.u8.getD 1 = 0)
    || (n.is_u16 && n.u16.getD 1 = 0)
    || (n.is_u32 && n.u32.getD 1 = 0)
    || (n.is_u64 && n.u64.getD 1 = 0)
    || (n.is_u128 && n.u128.getD 1 = 0)

/-- `Number::is_positive`. -/
def is_positive (n : Number) : Bool := !n.is_signed && !n.is_zero

/-- `Number::is_negative`. -/
def is_negative (n : Number) : Bool := n.is_signed && !n.is_zero

/-- `Number::number_type`: fixed priority order, signed 8→128, then unsigned
8→128, then floats 32→64, else `Unknown`. -/
def number_type (n : Number) : NumberType :=
  if n.is_i8 then .I8
  else if n.is_i16 then .I16
  else if n.is_i32 then .I32
  else if n.is_i64 then .I64
  else if n.is_i128 then .I128
  else if n.is_u8 then .U8
  else if n.is_u16 then .U16
  else if n.is_u32 then .U32
  else if n.is_u64 then .U64
  else if n.is_u128 then .U128
  else if n.is_f32 then .F32
  else if n.is_f64 then .F64
  else .Unknown

end Number

/-- `i64::MAX`. -/
def i64Max : Int := 2 ^ 63 - 1

/-- `i64::MIN`. -/
def i64Min : Int := -(2 ^ 63)

/-- `u64::MAX`. -/
def u64Max : Nat := 2 ^ 64 - 1

/-- The Rust cast `v as i64` applied to an `i128` value: two's-complement
wrapping to 64 bits. -/
def i128AsI64 (v : Int) : Int :=
  let m := v % (2 ^ 64 : Int)
  if m < 2 ^ 63 then m else m - 2 ^ 64

/-- The Rust cast `v as i64` applied to a `u64` value: reinterpretation of the
64-bit pattern, i.e. two's-complement wrapping. -/
def u64AsI64 (v : Nat) : Int :=
  if v < 2 ^ 63 then (v : Int) else (v : Int) - 2 ^ 64

namespace Number

/-- `Number::to_i64` (`types/number.rs` lines 585-617).  Branch order and the
checks performed are exactly the source's: the `i128` branch rejects only
values above `i64::MAX`, the `u128` branch rejects values above `i64::MAX`,
and the `u64` branch performs an unchecked `as i64` cast. -/
def to_i64 (n : Number) : Option Int :=
  if n.is_i128 then
    if n.i128.getD 0 > i64Max then none
    else some (i128AsI64 (n.i128.getD 0))
  else if n.is_i64 then some (n.i64.getD 0)
  else if n.is_i32 then some (n.i32.getD 0)
  else if n.is_i16 then some (n.i16.getD 0)
  else if n.is_i8 then some (n.i8.getD 0)
  else if n.is_u128 then
    if (n.u128.getD 0 : Int) > i64Max then none
    else some ((n.u128.getD 0 : Int))
  else if n.is_u64 then some (u64AsI64 (n.u64.getD 0))
  else if n.is_u32 then some ((n.u32.getD 0 : Int))
  else if n.is_u16 then some ((n.u16.getD 0 : Int))
  else if n.is_u8 then some ((n.u8.getD 0 : Int))
  else none

/-- `Number::to_u64` (`types/number.rs` lines 619-667).  The signed branches
reject negative values; the 128-bit branches additionally reject values above
`u64::MAX`. -/
def to_u64 (n : Number) : Option Nat :=
  if n.is_i128 then
    if n.i128.getD 0 < 0 || n.i128.getD 0 > (u64Max : Int) then none
    else some (n.i128.getD 0).toNat
  else if n.is_i64 then
    if n.i64.getD 0 < 0 then none else some (n.i64.getD 0).toNat
  else if n.is_i32 then
    if n.i32.getD 0 < 0 then none else some (n.i32.getD 0).toNat
  else if n.is_i16 then
    if n.i16.getD 0 < 0 then none else some (n.i16.getD 0).toNat
  else if n.is_i8 then
    if n.i8.getD 0 < 0 then none else some (n.i8.getD 0).toNat
  else if n.is_u128 then
    if n.u128.getD 0 > u64Max then none else some (n.u128.getD 0)
  else if n.is_u64 then some (n.u64.getD 0)
  else if n.is_u32 then some (n.u32.getD 0)
  else if n.is_u16 then some (n.u16.getD 0)
  else if n.is_u8 then some (n.u8.getD 0)
  else none

/-- `impl From<u8> for Number` and siblings: populate exactly one slot. -/
def fromU8 (v : Nat) : Number := { u8 := some v }

def fromU16 (v : Nat) : Number := { u16 := some v }

def fromU32 (v : Nat) : Number := { u32 := some v }

def fromU64 (v : Nat) : Number := { u64 := some v }

def fromU128 (v : Nat) : Number := { u128 := some v }

def fromI8 (v : Int) : Number := { i8 := some v }

def fromI16 (v : Int) : Number := { i16 := some v }

def fromI32 (v : Int) : Number := { i32 := some v }

def fromI64 (v : Int) : Number := { i64 := some v }

def fromI128 (v : Int) : Number := { i128 := some v }

def fromF32 (v : FVal) : Number := { f32 := some v }

def fromF64 (v : FVal) : Number := { f64 := some v }

end Number

/-! ## Textual parsing (`TryFrom<&str> for Number`)

Models of the Rust standard library's `str::parse` for the integer types and
for the floats, as used by `Number::try_from`.  Integer parsing accepts an
optional `+`/`-` sign (`-` only for signed types) followed by one or more
ASCII digits, and fails on overflow of the target range.  Float parsing
accepts an optional sign followed by `inf`, `infinity` or `nan`
(case-insensitive) or a decimal number `Digits ('.' Digits?)? Exp?` /
`'.' Digits Exp?` with `Exp ::= ('e'|'E') Sign? Digits`; finite payloads are
kept as exact decimals (acceptance matches Rust exactly; the payload is the
unrounded decimal value). -/

/-- Value of a list of ASCII digit characters, most significant first. -/
def digitsVal (cs : List Char) : Nat :=
  cs.foldl (fun acc c => acc * 10 + (c.toNat - 48)) 0

/-- All characters are ASCII digits. -/
def allDigits (cs : List Char) : Bool := cs.all Char.isDigit

/-- Shared tail of Rust integer parsing: one or more digits, value (after the
already-consumed sign) within `[lo, hi]`. -/
def parseDigitsRange (lo hi sign : Int) (cs : List Char) : Option Int :=
  if cs.isEmpty then none
  else if allDigits cs then
    let v : Int := sign * (digitsVal cs : Int)
    if lo ≤ v ∧ v ≤ hi then some v else none
  else none

/-- Rust `str::parse::<iN/uN>`: optional sign (a leading `-` is rejected for
the unsigned types), then digits, then range check. -/
def parseRustInt (allowNeg : Bool) (lo hi : Int) (s : String) : Option Int :=
  match s.data with
  | '+' :: rest => parseDigitsRange lo hi 1 rest
  | '-' :: rest => if allowNeg then parseDigitsRange lo hi (-1) rest else none
  | rest => parseDigitsRange lo hi 1 rest

def parseI8 : String → Option Int := parseRustInt true (-(2 ^ 7)) (2 ^ 7 - 1)

def parseI16 : String → Option Int := parseRustInt true (-(2 ^ 15)) (2 ^ 15 - 1)

def parseI32 : String → Option Int := parseRustInt true (-(2 ^ 31)) (2 ^ 31 - 1)

def parseI64 : String → Option Int := parseRustInt true (-(2 ^ 63)) (2 ^ 63 - 1)

def parseI128 : String → Option Int := parseRustInt true (-(2 ^ 127)) (2 ^ 127 - 1)

def parseU8 : String → Option Int := parseRustInt false 0 (2 ^ 8 - 1)

def parseU16 : String → Option Int := parseRustInt false 0 (2 ^ 16 - 1)

def parseU32 : String → Option Int := parseRustInt false 0 (2 ^ 32 - 1)

def parseU64 : String → Option Int := parseRustInt false 0 (2 ^ 64 - 1)

def parseU128 : String → Option Int := parseRustInt false 0 (2 ^ 128 - 1)

/-- ASCII lower-casing, for the case-insensitive `inf`/`nan` forms. -/
def asciiLower (c : Char) : Char :=
  if 'A' ≤ c ∧ c ≤ 'Z' then Char.ofNat (c.toNat + 32) else c

/-- The finite float value `sign * ipart.fpart * 10^exp`, exactly, as a
decimal pair: mantissa `sign * (digits of ipart ++ fpart)`, exponent
`exp - |fpart|`. -/
def mkFinite (sign : Int) (ip fp : List Char) (exp : Int) : FVal :=
  .finite (sign * (digitsVal (ip ++ fp) : Int)) (exp - fp.length)

/-- Exponent suffix of the Rust float grammar: `('e'|'E') Sign? Digits` or
nothing. -/
def parseExpTail (sign : Int) (ip fp rest : List Char) : Option FVal :=
  match rest with
  | [] => some (mkFinite sign ip fp 0)
  | e :: r =>
    if e = 'e' ∨ e = 'E' then
      let finish := fun (esign : Int) (ds : List Char) =>
        if ds.isEmpty then none
        else if allDigits ds then some (mkFinite sign ip fp (esign * (digitsVal ds : Int)))
        else none
      match r with
      | '+' :: r2 => finish 1 r2
      | '-' :: r2 => finish (-1) r2
      | r2 => finish 1 r2
    else none

/-- Decimal part of the Rust float grammar:
`Digits ('.' Digits?)? Exp? | '.' Digits Exp?`. -/
def parseDecimal (sign : Int) (cs : List Char) : Option FVal :=
  let ip := cs.takeWhile Char.isDigit
  let rest1 := cs.dropWhile Char.isDigit
  match rest1 with
  | '.' :: rest2 =>
    let fp := rest2.takeWhile Char.isDigit
    let rest3 := rest2.dropWhile Char.isDigit
    if ip.isEmpty && fp.isEmpty then none
    else parseExpTail sign ip fp rest3
  | rest2 =>
    if ip.isEmpty then none else parseExpTail sign ip [] rest2

/-- Body of a Rust float literal after the optional sign. -/
def parseFloatBody (sign : Int) (cs : List Char) : Option FVal :=
  let lower := cs.map asciiLower
  if lower = "inf".data ∨ lower = "infinity".data then
    some (if sign = 1 then .inf else .neginf)
  else if lower = "nan".data then some .nan
  else parseDecimal sign cs

/-- Rust `str::parse::<f64>` / `str::parse::<f32>` acceptance, with the finite
payload kept as an exact rational. -/
def parseRustFloat (s : String) : Option FVal :=
  match s.data with
  | '+' :: rest => parseFloatBody 1 rest
  | '-' :: rest => parseFloatBody (-1) rest
  | rest => parseFloatBody 1 rest

/-- Modelled from the spec: the library's error enum lives in a file that is
not under `src/`; `NotNumber` is the "not a number" error that
`Number::try_from` returns when every parse attempt fails. -/
inductive Error where
  | NotNumber
  deriving DecidableEq, Repr

/-- Decidable equality for `Except` results (Rust `Result`). -/
instance {ε α : Type} [DecidableEq ε] [DecidableEq α] : DecidableEq (Except ε α) := fun a b =>
  match a, b with
  | .ok x, .ok y =>
    if h : x = y then .isTrue (by rw [h]) else .isFalse (by intro hc; cases hc; exact h rfl)
  | .error x, .error y =>
    if h : x = y then .isTrue (by rw [h]) else .isFalse (by intro hc; cases hc; exact h rfl)
  | .ok _, .error _ => .isFalse (by intro hc; cases hc)
  | .error _, .ok _ => .isFalse (by intro hc; cases hc)

/-- `impl TryFrom<&str> for Number` (`types/number.rs` lines 905-947): the
parse attempts run in the fixed source order i32, f64, i8, i16, i64, i128,
u8, u16, u32, u64, u128, f32; the first success determines the populated
slot. -/
def Number.tryFromStr (s : String) : Except Error Number :=
  match parseI32 s with
  | some v => .ok (Number.fromI32 v)
  | none =>
  match parseRustFloat s with
  | some q => .ok (Number.fromF64 q)
  | none =>
  match parseI8 s with
  | some v => .ok (Number.fromI8 v)
  | none =>
  match parseI16 s with
  | some v => .ok (Number.fromI16 v)
  | none =>
  match parseI64 s with
  | some v => .ok (Number.fromI64 v)
  | none =>
  match parseI128 s with
  | some v => .ok (Number.fromI128 v)
  | none =>
  match parseU8 s with
  | some v => .ok (Number.fromU8 v.toNat)
  | none =>
  match parseU16 s with
  | some v => .ok (Number.fromU16 v.toNat)
  | none =>
  match parseU32 s with
  | some v => .ok (Number.fromU32 v.toNat)
  | none =>
  match parseU64 s with
  | some v => .ok (Number.fromU64 v.toNat)
  | none =>
  match parseU128 s with
  | some v => .ok (Number.fromU128 v.toNat)
  | none =>
  match parseRustFloat s with
  | some q => .ok (Number.fromF32 q)
  | none => .error Error.NotNumber

/-! ## DateTime (`types/datetime.rs`)

The payload shapes come from the chrono crate, an external collaborator
(spec §6).  Modelled from the spec: a `NaiveDate` is a calendar day,
represented by its day count since 1970-01-01; a `NaiveTime` is a time of
day, represented by its nanosecond count within the day; a
`ChDateTime<Utc>` is an instant, represented by its nanosecond count since
the Unix epoch; a `Duration` is a signed nanosecond count.  Adding a
days-duration to a `NaiveDate` shifts its day count; adding a `Duration` to
an instant shifts its nanosecond count. -/

/-- Nanoseconds in one day. -/
def nanosPerDay : Int := 86400000000000

/-- chrono `Duration`: a signed number of nanoseconds. -/
structure Duration where
  nanos : Int
  deriving DecidableEq, Repr

/-- chrono `Duration::days(n)`. -/
def Duration.days (n : Int) : Duration := ⟨n * nanosPerDay⟩

/-- chrono `Duration::num_days`: whole days, truncated toward zero. -/
def Duration.num_days (d : Duration) : Int := d.nanos.tdiv nanosPerDay

/-- Day count since 1970-01-01 of the civil date `y-m-d` (standard
days-from-civil calendar algorithm; all divisions act on non-negative
operands). -/
def daysFromCivil (y m d : Int) : Int :=
  let y' := if m ≤ 2 then y - 1 else y
  let era := (if 0 ≤ y' then y' else y' - 399).tdiv 400
  let yoe := (y' - era * 400).toNat
  let mp := (if 2 < m then m - 3 else m + 9).toNat
  let doy := (153 * mp + 2) / 5 + (d - 1).toNat
  let doe := yoe * 365 + yoe / 4 - yoe / 100 + doy
  era * 146097 + (doe : Int) - 719468

/-- The `DateTime` enum of `types/datetime.rs`: date-only, time-only, or
date-time-with-UTC-zone. -/
inductive DateTime where
  | Date (days : Int)
  | Time (nanosOfDay : Int)
  | DateTime (nanosSinceEpoch : Int)
  deriving DecidableEq, Repr

/-- `DateTime::add_duration` (`types/datetime.rs` lines 251-259): a Date
moves by the duration's whole-day count, a bare Time admits no duration
arithmetic (`None`), a DateTime-with-zone moves by the exact duration. -/
def DateTime.add_duration (dt : Valu3.DateTime) (duration : Duration) :
    Option Valu3.DateTime :=
  match dt with
  | .Date date => some (.Date (date + (Duration.days duration.num_days).nanos.tdiv nanosPerDay))
  | .Time _ => none
  | .DateTime datetime => some (.DateTime (datetime + duration.nanos))

/-! ## Value (`value.rs`) -/

/-- The `Value` enum of `value.rs`, variants in declaration order.  Modelled
from the spec for the payload containers whose files are not under `src/`:
`StringB` is represented by its string content, `Array` by its list of
elements in order, `Object` by its list of key/value pairs in insertion
order. -/
inductive Value where
  | String (s : String)
  | Number (n : Number)
  | Boolean (b : Bool)
  | Array (xs : List Value)
  | Object (pairs : List (String × Value))
  | Null
  | Undefined
  | DateTime (dt : DateTime)

/-- The discriminant of a `Value`, i.e. the position of its variant in the
declaration order of the enum. -/
def Value.discriminant : Value → Nat
  | .String _ => 0
  | .Number _ => 1
  | .Boolean _ => 2
  | .Array _ => 3
  | .Object _ => 4
  | .Null => 5
  | .Undefined => 6
  | .DateTime _ => 7

/-- Lexicographic combination used by Rust's derived `PartialOrd`: take the
first field's result unless it is `Some(Equal)`. -/
def pcLex (r : Option Ordering) (next : Unit → Option Ordering) : Option Ordering :=
  match r with
  | some .eq => next ()
  | other => other

/-- Rust `PartialOrd` on `Option`: `None < Some(_)`; two `Some`s defer to the
payload's partial comparison. -/
def optPartialCmp (f : α → α → Option Ordering) : Option α → Option α → Option Ordering
  | none, none => some .eq
  | none, some _ => some .lt
  | some _, none => some .gt
  | some a, some b => f a b

/-- Partial comparison of float payloads (IEEE semantics: NaN is incomparable
with everything; `-inf < finite < inf`). -/
def FVal.partialCmp : FVal → FVal → Option Ordering
  | .nan, _ => none
  | _, .nan => none
  | .inf, .inf => some .eq
  | .inf, _ => some .gt
  | _, .inf => some .lt
  | .neginf, .neginf => some .eq
  | .neginf, _ => some .lt
  | _, .neginf => some .gt
  | .finite m1 e1, .finite m2 e2 =>
    let e := min e1 e2
    some (compare (m1 * 10 ^ (e1 - e).toNat) (m2 * 10 ^ (e2 - e).toNat))

/-- Total comparison lifted to Rust's `partial_cmp` shape. -/
def totalCmp [Ord α] (a b : α) : Option Ordering := some (compare a b)

/-- Rust's derived `PartialOrd` on the `Number` struct: lexicographic over
the twelve `Option` fields in declaration order (u8 … u128, i8 … i128, f32,
f64). -/
def Number.partialCmp (a b : Number) : Option Ordering :=
  pcLex (optPartialCmp totalCmp a.u8 b.u8) fun _ =>
  pcLex (optPartialCmp totalCmp a.u16 b.u16) fun _ =>
  pcLex (optPartialCmp totalCmp a.u32 b.u32) fun _ =>
  pcLex (optPartialCmp totalCmp a.u64 b.u64) fun _ =>
  pcLex (optPartialCmp totalCmp a.u128 b.u128) fun _ =>
  pcLex (optPartialCmp totalCmp a.i8 b.i8) fun _ =>
  pcLex (optPartialCmp totalCmp a.i16 b.i16) fun _ =>
  pcLex (optPartialCmp totalCmp a.i32 b.i32) fun _ =>
  pcLex (optPartialCmp totalCmp a.i64 b.i64) fun _ =>
  pcLex (optPartialCmp totalCmp a.i128 b.i128) fun _ =>
  pcLex (optPartialCmp FVal.partialCmp a.f32 b.f32) fun _ =>
  optPartialCmp FVal.partialCmp a.f64 b.f64

/-- Rust's derived `PartialOrd` on the `DateTime` enum: variants ordered by
declaration order (Date, Time, DateTime); payloads are totally ordered. -/
def dateTimePartialCmp : Valu3.DateTime → Valu3.DateTime → Option Ordering
  | .Date a, .Date b => some (compare a b)
  | .Time a, .Time b => some (compare a b)
  | .DateTime a, .DateTime b => some (compare a b)
  | .Date _, _ => some .lt
  | _, .Date _ => some .gt
  | .Time _, _ => some .lt
  | _, .Time _ => some .gt

/-- Rust's derived lexicographic `PartialOrd` on slices/`Vec`s, parameterised
by the element comparison. -/
def listPartialCmp (f : α → α → Option Ordering) : List α → List α → Option Ordering
  | [], [] => some .eq
  | [], _ :: _ => some .lt
  | _ :: _, [] => some .gt
  | a :: as', b :: bs' => pcLex (f a b) fun _ => listPartialCmp f as' bs'

/-- Rust's derived `PartialOrd` on pairs. -/
def pairPartialCmp (f : α → α → Option Ordering) (g : β → β → Option Ordering) :
    α × β → α × β → Option Ordering
  | (a1, b1), (a2, b2) => pcLex (f a1 a2) fun _ => g b1 b2

mutual

/-- `partial_cmp` on `Value` as generated by `#[derive(PartialOrd)]` in
`value.rs`: values of different variants compare by variant declaration
order (`String < Number < Boolean < Array < Object < Null < Undefined <
DateTime`); values of the same variant defer to the payload's own partial
comparison.  Modelled from the spec for the payload comparisons whose files
are not under `src/`: `StringB` compares lexically, `Array` and `Object`
compare lexicographically element-wise. -/
def valuePartialCmp : Value → Value → Option Ordering
  | .String a, .String b => some (compare a b)
  | .Number a, .Number b => Number.partialCmp a b
  | .Boolean a, .Boolean b => some (compare a b)
  | .Array a, .Array b => valueListCmp a b
  | .Object a, .Object b => valuePairsCmp a b
  | .Null, .Null => some .eq
  | .Undefined, .Undefined => some .eq
  | .DateTime a, .DateTime b => dateTimePartialCmp a b
  | a, b => some (compare a.discriminant b.discriminant)

/-- Element-wise lexicographic comparison of `Value` lists. -/
def valueListCmp : List Value → List Value → Option Ordering
  | [], [] => some .eq
  | [], _ :: _ => some .lt
  | _ :: _, [] => some .gt
  | a :: as', b :: bs' =>
    match valuePartialCmp a b with
    | some .eq => valueListCmp as' bs'
    | other => other

/-- Element-wise lexicographic comparison of key/value pair lists. -/
def valuePairsCmp : List (String × Value) → List (String × Value) → Option Ordering
  | [], [] => some .eq
  | [], _ :: _ => some .lt
  | _ :: _, [] => some .gt
  | (k1, v1) :: as', (k2, v2) :: bs' =>
    match compare k1 k2 with
    | .eq =>
      match valuePartialCmp v1 v2 with
      | some .eq => valuePairsCmp as' bs'
      | other => other
    | o => some o

end

/-! ## Conversion traits (`traits.rs`)

`FromValueBehavior::from_value : Value -> Option<Item>`.  The generic
instances are modelled as combinators over an element conversion
`f : Value → Option α`.  The `Vec`/map instances call
`T::from_value(..).unwrap()` on every element, which panics when an element
conversion fails; a panic is modelled as `Except.error CrashKind.unwrapFailed`
while the function's own `Option` result is the payload of `Except.ok`. -/

/-- The fatal outcome of `Option::unwrap` on `None`. -/
inductive CrashKind where
  | unwrapFailed
  deriving DecidableEq, Repr

/-- `impl FromValueBehavior for i32` (`traits.rs` lines 42-52): succeeds only
on `Value::Number` whose `i32` slot is populated. -/
def i32FromValue (value : Value) : Option Int :=
  match value with
  | .Number number => number.get_i32
  | _ => none

/-- `impl<T> FromValueBehavior for Option<T>` (`traits.rs` lines 381-393):
`Value::Null` flattens to the outer `None`; every other variant becomes
`Some` of the inner conversion's result. -/
def optionFromValue (f : Value → Option α) (value : Value) : Option (Option α) :=
  match value with
  | .Null => none
  | _ => some (f value)

/-- `array.into_iter().map(|v| T::from_value(v).unwrap()).collect()`: converts
the elements in order, panicking at the first element whose conversion
returns `None`. -/
def mapUnwrap (f : Value → Option α) : List Value → Except CrashKind (List α)
  | [] => .ok []
  | v :: vs =>
    match f v with
    | none => .error .unwrapFailed
    | some a => (mapUnwrap f vs).map (a :: ·)

/-- `impl<T> FromValueBehavior for Vec<T>` (`traits.rs` lines 224-242):
`Some` of the element-wise conversion on `Value::Array`, `None` on every
other variant; an element failure is a panic, not a `None`. -/
def vecFromValue (f : Value → Option α) (value : Value) :
    Except CrashKind (Option (List α)) :=
  match value with
  | .Array array => (mapUnwrap f array).map some
  | _ => .ok none

/-- `HashMap::insert`: key uniqueness with last-write-wins (the hash map's
iteration order is irrelevant here; the map is represented by its entry
list). -/
def hmInsert (k : String) (a : α) : List (String × α) → List (String × α)
  | [] => [(k, a)]
  | (k', a') :: rest => if k' = k then (k, a) :: rest else (k', a') :: hmInsert k a rest

/-- The fold in `HashMap<String, T>::from_value`: iterates the object's
entries in order, inserting `T::from_value(value).unwrap()` for each,
panicking at the first value whose conversion returns `None`. -/
def objFoldUnwrap (f : Value → Option α) (acc : List (String × α)) :
    List (String × Value) → Except CrashKind (List (String × α))
  | [] => .ok acc
  | (k, v) :: rest =>
    match f v with
    | none => .error .unwrapFailed
    | some a => objFoldUnwrap f (hmInsert k a acc) rest

/-- `impl<T> FromValueBehavior for HashMap<String, T>` (`traits.rs` lines
340-360): `Some` of the entry-wise conversion on `Value::Object`, `None` on
every other variant; an element failure is a panic. -/
def hashMapFromValue (f : Value → Option α) (value : Value) :
    Except CrashKind (Option (List (String × α))) :=
  match value with
  | .Object array => (objFoldUnwrap f [] array).map some
  | _ => .ok none

/-! ## Clean-then-set operation sequences (for the single-slot invariant) -/

/-- One of the twelve numeric kinds. -/
inductive NumKind where
  | U8 | U16 | U32 | U64 | U128
  | I8 | I16 | I32 | I64 | I128
  | F32 | F64
  deriving DecidableEq, Repr

/-- A `set_<kind>(v)` call together with its argument. -/
inductive SetOp where
  | setU8 (v : Nat)
  | setU16 (v : Nat)
  | setU32 (v : Nat)
  | setU64 (v : Nat)
  | setU128 (v : Nat)
  | setI8 (v : Int)
  | setI16 (v : Int)
  | setI32 (v : Int)
  | setI64 (v : Int)
  | setI128 (v : Int)
  | setF32 (v : FVal)
  | setF64 (v : FVal)

/-- The kind a `set_<kind>` call populates. -/
def SetOp.kind : SetOp → NumKind
  | .setU8 _ => .U8
  | .setU16 _ => .U16
  | .setU32 _ => .U32
  | .setU64 _ => .U64
  | .setU128 _ => .U128
  | .setI8 _ => .I8
  | .setI16 _ => .I16
  | .setI32 _ => .I32
  | .setI64 _ => .I64
  | .setI128 _ => .I128
  | .setF32 _ => .F32
  | .setF64 _ => .F64

/-- Dispatch a `set_<kind>` call on a `Number`. -/
def SetOp.apply (op : SetOp) (n : Number) : Number :=
  match op with
  | .setU8 v => n.set_u8 v
  | .setU16 v => n.set_u16 v
  | .setU32 v => n.set_u32 v
  | .setU64 v => n.set_u64 v
  | .setU128 v => n.set_u128 v
  | .setI8 v => n.set_i8 v
  | .setI16 v => n.set_i16 v
  | .setI32 v => n.set_i32 v
  | .setI64 v => n.set_i64 v
  | .setI128 v => n.set_i128 v
  | .setF32 v => n.set_f32 v
  | .setF64 v => n.set_f64 v

/-- One "clean then set" step: `n.clean().set_<kind>(v)`. -/
def cleanThenSet (n : Number) (op : SetOp) : Number := op.apply n.clean

/-- Run a sequence of clean-then-set steps from a starting state. -/
def runOps (n : Number) (ops : List SetOp) : Number := ops.foldl cleanThenSet n

/-- The `is_<kind>` predicate selected by a kind. -/
def isKind (k : NumKind) (n : Number) : Bool :=
  match k with
  | .U8 => n.is_u8
  | .U16 => n.is_u16
  | .U32 => n.is_u32
  | .U64 => n.is_u64
  | .U128 => n.is_u128
  | .I8 => n.is_i8
  | .I16 => n.is_i16
  | .I32 => n.is_i32
  | .I64 => n.is_i64
  | .I128 => n.is_i128
  | .F32 => n.is_f32
  | .F64 => n.is_f64

/-- The `NumberType` named by a kind. -/
def NumKind.toNumberType : NumKind → NumberType
  | .U8 => .U8
  | .U16 => .U16
  | .U32 => .U32
  | .U64 => .U64
  | .U128 => .U128
  | .I8 => .I8
  | .I16 => .I16
  | .I32 => .I32
  | .I64 => .I64
  | .I128 => .I128
  | .F32 => .F32
  | .F64 => .F64

/-!
## Theorems for the claims
-/

/-- C1 counterexample: `Number::from(u64::MAX).to_i64()` is NOT absence — the
`u64` branch of `to_i64` performs an unchecked `as i64` cast, so the result
is `Some(-1)` (the two's-complement reinterpretation of `u64::MAX`), even
though `u64::MAX` does not fit in `i64`. -/
theorem c1_counterexample :
    (Number.fromU64 u64Max).to_i64 ≠ none ∧
      (Number.fromU64 u64Max).to_i64 = some (-1) := by
  constructor
  · decide
  · decide

/-- C1 amended: for every u64-populated `Number`, `to_i64()` returns `Some`
of the value cast wrapping (two's complement) to `i64` — it never returns
absence; the cast is the identity exactly on values below `2^63`. -/
theorem c1_amended (v : Nat) (_h : v ≤ u64Max) :
    (Number.fromU64 v).to_i64 = some (u64AsI64 v) ∧
      (v < 2 ^ 63 → (Number.fromU64 v).to_i64 = some (v : Int)) := by
  refine ⟨rfl, fun hv => ?_⟩
  simp only [Number.fromU64, Number.to_i64, Number.is_i128, Number.is_i64, Number.is_i32,
    Number.is_i16, Number.is_i8, Number.is_u128, Number.is_u64, u64AsI64, hv,
    Option.isSome_none, Option.isSome_some, Option.getD_some, if_true, if_false,
    Bool.false_eq_true, Bool.true_eq_false, ite_false, ite_true, if_pos hv]

/-- C1 witness: the amended statement evaluated at `u64::MAX`. -/
theorem c1_witness :
    u64Max ≤ u64Max ∧ (Number.fromU64 u64Max).to_i64 = some (u64AsI64 u64Max) :=
  ⟨Nat.le_refl _, (c1_amended u64Max (Nat.le_refl _)).1⟩

/-- C2 counterexample: comparing a `Value::String` against a `Value::Number`
does NOT report incomparable — `Value` derives `PartialOrd`, so values of
different variants compare by variant declaration order, and
`partial_cmp(String(..), Number(..))` is `Some(Less)`. -/
theorem c2_counterexample :
    valuePartialCmp (Value.String "a") (Value.Number (Number.fromI32 42)) =
        some Ordering.lt ∧
      valuePartialCmp (Value.String "a") (Value.Number (Number.fromI32 42)) ≠ none := by
  refine ⟨rfl, fun h => ?_⟩
  rw [show valuePartialCmp (Value.String "a") (Value.Number (Number.fromI32 42)) =
    some Ordering.lt from rfl] at h
  cases h

/-- C2 amended: for every pair of `Value`s of different variants,
`partial_cmp` returns `Some` of the ordering of the variants' declaration
positions (`String < Number < Boolean < Array < Object < Null < Undefined <
DateTime`); it is never `None` across variants — incomparability can arise
only within a variant (from float payloads). -/
theorem c2_amended (a b : Value) (h : a.discriminant ≠ b.discriminant) :
    valuePartialCmp a b = some (compare a.discriminant b.discriminant) := by
  cases a <;> cases b <;> first | exact absurd rfl h | rfl

/-- C2 witness: the amended statement evaluated at a String/Number pair. -/
theorem c2_witness :
    (Value.String "a").discriminant ≠ (Value.Number (Number.fromI32 42)).discriminant ∧
      valuePartialCmp (Value.String "a") (Value.Number (Number.fromI32 42)) =
        some (compare (Value.String "a").discriminant
          (Value.Number (Number.fromI32 42)).discriminant) :=
  ⟨by decide, c2_amended (Value.String "a") (Value.Number (Number.fromI32 42)) (by decide)⟩

/-- C3 evaluation at the failing input: for an i128-populated `Number` whose
value `-(2^63) - 1` lies just below `i64::MIN`, `to_i64()` does not return
absence — the source checks only the upper bound `i64::MAX` before the
wrapping `as i64` cast, so the result is `Some(i64::MAX)`. -/
theorem c3_bug_eval :
    (-(2 ^ 63) - 1 : Int) < i64Min ∧
      (Number.fromI128 (-(2 ^ 63) - 1)).to_i64 = some i64Max ∧
      (Number.fromI128 (-(2 ^ 63) - 1)).to_i64 ≠ none := by
  refine ⟨by decide, by decide, by decide⟩

/-- C4: `Number::try_from` on text parses in the fixed order i32, f64, i8,
i16, i64, i128, u8, u16, u32, u64, u128, f32.  `"200"` yields an i32-kind
`Number` even though it also fits `u8`; `"3.14"` fails the i32 parse and
yields an f64-kind `Number`; `"abc"` fails every attempt and yields the
"not a number" error; an integer too wide for i32 such as `"2147483648"` is
caught by the f64 attempt, not by the later integer attempts. -/
theorem c4_parse_order :
    Number.tryFromStr "200" = .ok (Number.fromI32 200) ∧
      (Number.fromI32 200).number_type = NumberType.I32 ∧
      parseU8 "200" = some 200 ∧
      Number.tryFromStr "3.14" = .ok (Number.fromF64 (.finite 314 (-2))) ∧
      (Number.fromF64 (.finite 314 (-2))).number_type = NumberType.F64 ∧
      Number.tryFromStr "abc" = .error Error.NotNumber ∧
      Number.tryFromStr "2147483648" = .ok (Number.fromF64 (.finite 2147483648 0)) := by
  refine ⟨by decide, by decide, by decide, by decide, by decide, by decide, by decide⟩

/-- C5: the `Option`-target conversion flattens `Null`: on `Value::Null` the
outer `Option` is `None`, on every other input it is `Some` of the inner
conversion's result; in particular `Option::<i32>::from_value` on the number
42 gives `Some(Some(42))`. -/
theorem c5_option_flattening :
    (∀ (α : Type) (f : Value → Option α), optionFromValue f Value.Null = none) ∧
      (∀ (α : Type) (f : Value → Option α) (v : Value),
        v ≠ Value.Null → optionFromValue f v = some (f v)) ∧
      optionFromValue i32FromValue (Value.Number (Number.fromI32 42)) = some (some 42) := by
  refine ⟨fun α f => rfl, fun α f v hv => ?_, rfl⟩
  cases v <;> first | rfl | exact absurd rfl hv

/-- C5 witness: the non-Null case evaluated at `Value::Undefined`. -/
theorem c5_witness :
    optionFromValue i32FromValue Value.Undefined = some (i32FromValue Value.Undefined) :=
  c5_option_flattening.2.1 Int i32FromValue Value.Undefined (fun h => Value.noConfusion h)

/-- C10: only `Value::Null` flattens: on `Value::Undefined` the
`Option`-target conversion returns `Some` of the inner result, which for the
i32 target is `Some(None)`; `Undefined` and `Null` are therefore
distinguishable through the `Option` conversion. -/
theorem c10_undefined_not_flattened :
    (∀ (α : Type) (f : Value → Option α),
        optionFromValue f Value.Undefined = some (f Value.Undefined)) ∧
      optionFromValue i32FromValue Value.Undefined = some none ∧
      optionFromValue i32FromValue Value.Null = none ∧
      optionFromValue i32FromValue Value.Undefined ≠
        optionFromValue i32FromValue Value.Null := by
  refine ⟨fun α f => rfl, rfl, rfl, by simp [optionFromValue, i32FromValue]⟩

/-- `mapUnwrap` succeeds exactly when every element converts, and then the
converted list lines up with the inputs element-wise. -/
theorem mapUnwrap_ok_iff {α : Type} (f : Value → Option α) (xs : List Value) (ys : List α) :
    mapUnwrap f xs = .ok ys ↔ xs.map f = ys.map some := by
  induction xs generalizing ys with
  | nil => cases ys <;> simp [mapUnwrap]
  | cons v vs ih =>
    cases hfv : f v with
    | none =>
      cases ys <;> simp [mapUnwrap, hfv]
    | some a =>
      cases ys with
      | nil =>
        cases hr : mapUnwrap f vs <;> simp [mapUnwrap, hfv, hr, Except.map]
      | cons y ys' =>
        have h2 := ih ys'
        cases hr : mapUnwrap f vs with
        | error e =>
          rw [hr] at h2
          simp only [mapUnwrap, hfv, hr, Except.map, List.map_cons, List.cons.injEq,
            Option.some.injEq]
          constructor
          · intro hc; cases hc
          · rintro ⟨-, hmap⟩
            cases h2.mpr hmap
        | ok zs =>
          rw [hr] at h2
          simp only [mapUnwrap, hfv, hr, Except.map, Except.ok.injEq, List.map_cons,
            List.cons.injEq, Option.some.injEq]
          constructor
          · rintro ⟨h4, h5⟩
            exact ⟨h4, h2.mp (by rw [h5])⟩
          · rintro ⟨h4, h5⟩
            have h6 := h2.mpr h5
            injection h6 with h7
            exact ⟨h4, h7⟩

/-- A failing element makes `mapUnwrap` panic. -/
theorem mapUnwrap_error_of_mem {α : Type} (f : Value → Option α) (xs : List Value)
    (h : ∃ x ∈ xs, f x = none) : mapUnwrap f xs = .error .unwrapFailed := by
  induction xs with
  | nil => rcases h with ⟨x, hx, _⟩; cases hx
  | cons v vs ih =>
    rcases h with ⟨x, hx, hfx⟩
    cases hfv : f v with
    | none => simp [mapUnwrap, hfv]
    | some a =>
      rcases List.mem_cons.mp hx with hhead | htail
      · subst hhead; rw [hfv] at hfx; cases hfx
      · have := ih ⟨x, htail, hfx⟩
        simp [mapUnwrap, hfv, this, Except.map]

/-- If every entry's value converts, the object fold completes without
panicking, from any accumulator. -/
theorem objFoldUnwrap_ok_of_all {α : Type} (f : Value → Option α)
    (ps : List (String × Value)) (h : ∀ p ∈ ps, (f p.2).isSome) :
    ∀ acc, ∃ m, objFoldUnwrap f acc ps = .ok m := by
  induction ps with
  | nil => exact fun acc => ⟨acc, rfl⟩
  | cons p rest ih =>
    intro acc
    have hp := h p (List.mem_cons_self p rest)
    cases hfv : f p.2 with
    | none => rw [hfv] at hp; cases hp
    | some a =>
      rcases ih (fun q hq => h q (List.mem_cons_of_mem p hq)) (hmInsert p.1 a acc) with ⟨m, hm⟩
      exact ⟨m, by rw [show objFoldUnwrap f acc (p :: rest) =
        objFoldUnwrap f (hmInsert p.1 a acc) rest by
          cases p; simp [objFoldUnwrap, hfv]]; exact hm⟩

/-- A failing entry value makes the object fold panic, from any
accumulator. -/
theorem objFoldUnwrap_error_of_mem {α : Type} (f : Value → Option α)
    (ps : List (String × Value)) (h : ∃ p ∈ ps, f p.2 = none) :
    ∀ acc, objFoldUnwrap f acc ps = .error .unwrapFailed := by
  induction ps with
  | nil => rcases h with ⟨p, hp, _⟩; cases hp
  | cons q rest ih =>
    intro acc
    rcases h with ⟨p, hp, hfp⟩
    cases hfv : f q.2 with
    | none => cases q; simp [objFoldUnwrap, hfv] at *
    | some a =>
      rcases List.mem_cons.mp hp with hhead | htail
      · subst hhead; rw [hfv] at hfp; cases hfp
      · have := ih ⟨p, htail, hfp⟩
        cases q
        simp only [objFoldUnwrap, hfv]
        exact this _

/-- C6: the `Vec` target succeeds (`Some`) exactly on `Value::Array` with
every element converting, in which case the results line up element-wise
with the inputs; any element whose conversion fails is a panic
(`unwrap` on `None`), not a `None` result; and the `HashMap` target over
`Value::Object` behaves the same way per entry. -/
theorem c6_bulk_conversion_panics :
    (∀ (α : Type) (f : Value → Option α) (xs : List Value) (ys : List α),
        vecFromValue f (Value.Array xs) = .ok (some ys) ↔ xs.map f = ys.map some) ∧
      (∀ (α : Type) (f : Value → Option α) (v : Value),
        (∀ xs, v ≠ Value.Array xs) → vecFromValue f v = .ok none) ∧
      (∀ (α : Type) (f : Value → Option α) (xs : List Value),
        (∃ x ∈ xs, f x = none) →
          vecFromValue f (Value.Array xs) = .error .unwrapFailed) ∧
      (∀ (α : Type) (f : Value → Option α) (ps : List (String × Value)),
        (∀ p ∈ ps, (f p.2).isSome) →
          ∃ m, hashMapFromValue f (Value.Object ps) = .ok (some m)) ∧
      (∀ (α : Type) (f : Value → Option α) (v : Value),
        (∀ ps, v ≠ Value.Object ps) → hashMapFromValue f v = .ok none) ∧
      (∀ (α : Type) (f : Value → Option α) (ps : List (String × Value)),
        (∃ p ∈ ps, f p.2 = none) →
          hashMapFromValue f (Value.Object ps) = .error .unwrapFailed) := by
  refine ⟨?_, ?_, ?_, ?_, ?_, ?_⟩
  · intro α f xs ys
    rw [← mapUnwrap_ok_iff f xs ys]
    cases hr : mapUnwrap f xs <;> simp [vecFromValue, hr, Except.map]
  · intro α f v hv
    cases v <;> first | rfl | exact absurd rfl (hv _)
  · intro α f xs h
    simp [vecFromValue, mapUnwrap_error_of_mem f xs h, Except.map]
  · intro α f ps h
    rcases objFoldUnwrap_ok_of_all f ps h [] with ⟨m, hm⟩
    exact ⟨m, by simp [hashMapFromValue, hm, Except.map]⟩
  · intro α f v hv
    cases v <;> first | rfl | exact absurd rfl (hv _)
  · intro α f ps h
    simp [hashMapFromValue, objFoldUnwrap_error_of_mem f ps h [], Except.map]

/-- C6 witness: converting `[null]` as a `Vec<i32>` and `{"k": null}` as a
`HashMap<String, i32>` both panic (the element conversion fails on `Null`). -/
theorem c6_witness :
    vecFromValue i32FromValue (Value.Array [Value.Null]) = .error .unwrapFailed ∧
      hashMapFromValue i32FromValue (Value.Object [("k", Value.Null)]) =
        .error .unwrapFailed :=
  ⟨c6_bulk_conversion_panics.2.2.1 Int i32FromValue [Value.Null]
      ⟨Value.Null, List.mem_cons_self _ _, rfl⟩,
    c6_bulk_conversion_panics.2.2.2.2.2 Int i32FromValue [("k", Value.Null)]
      ⟨("k", Value.Null), List.mem_cons_self _ _, rfl⟩⟩

/-- C8: `add_duration` on a Time-only value is absence for every duration;
on the Date-only value 2023-04-05 with a one-day duration it yields the
Date-only value 2023-04-06; on a DateTime-with-zone value it shifts the
instant by exactly the given duration. -/
theorem c8_add_duration :
    (∀ (t : Int) (d : Duration), DateTime.add_duration (DateTime.Time t) d = none) ∧
      DateTime.add_duration (DateTime.Date (daysFromCivil 2023 4 5)) (Duration.days 1) =
        some (DateTime.Date (daysFromCivil 2023 4 6)) ∧
      (∀ (ts : Int) (d : Duration),
        DateTime.add_duration (DateTime.DateTime ts) d =
          some (DateTime.DateTime (ts + d.nanos))) := by
  refine ⟨fun t d => rfl, by decide, fun ts d => rfl⟩

/-- `clean` wipes every slot, so a clean-then-set step forgets the previous
state entirely. -/
theorem cleanThenSet_const (n : Number) (op : SetOp) :
    cleanThenSet n op = cleanThenSet Number.empty op := rfl

/-- A nonempty sequence of clean-then-set steps leaves the state determined
by its last step alone, whatever the starting state. -/
theorem runOps_cons_eq_last (a : SetOp) (ops : List SetOp) : ∀ s : Number,
    runOps s (a :: ops) =
      cleanThenSet Number.empty ((a :: ops).getLast (List.cons_ne_nil a ops)) := by
  induction ops generalizing a with
  | nil => intro s; rfl
  | cons b rest ih =>
    intro s
    have step : runOps s (a :: b :: rest) = runOps (cleanThenSet s a) (b :: rest) := rfl
    rw [step, ih b (cleanThenSet s a)]
    rfl

/-- After one clean-then-set step, exactly the set kind's predicate holds. -/
theorem isKind_cleanThenSet (op : SetOp) (k : NumKind) :
    isKind k (cleanThenSet Number.empty op) = true ↔ k = op.kind := by
  cases op <;> cases k <;>
    simp [isKind, cleanThenSet, SetOp.apply, SetOp.kind, Number.clean, Number.empty,
      Number.set_u8, Number.set_u16, Number.set_u32, Number.set_u64, Number.set_u128,
      Number.set_i8, Number.set_i16, Number.set_i32, Number.set_i64, Number.set_i128,
      Number.set_f32, Number.set_f64,
      Number.is_u8, Number.is_u16, Number.is_u32, Number.is_u64, Number.is_u128,
      Number.is_i8, Number.is_i16, Number.is_i32, Number.is_i64, Number.is_i128,
      Number.is_f32, Number.is_f64]

/-- After one clean-then-set step, `number_type` names the set kind. -/
theorem number_type_cleanThenSet (op : SetOp) :
    (cleanThenSet Number.empty op).number_type = op.kind.toNumberType := by
  cases op <;> rfl

/-- C7 (single-slot invariant): starting from the default `Number`, after any
nonempty sequence of operations each of which is `clean()` immediately
followed by one `set_<kind>(v)`, exactly one `is_<kind>()` predicate is true
— the one named by the last operation's kind — and `number_type()` returns
exactly that kind. -/
theorem c7_single_slot_invariant (ops : List SetOp) (h : ops ≠ []) :
    (∀ k, isKind k (runOps Number.empty ops) = true ↔ k = (ops.getLast h).kind) ∧
      (runOps Number.empty ops).number_type = (ops.getLast h).kind.toNumberType := by
  cases ops with
  | nil => exact absurd rfl h
  | cons a rest =>
    rw [runOps_cons_eq_last a rest Number.empty]
    exact ⟨fun k => isKind_cleanThenSet _ k, number_type_cleanThenSet _⟩

/-- C7 witness: the invariant evaluated on the concrete sequence
`clean().set_u8(1); clean().set_f64(nan)` — the f64 predicate alone holds
and `number_type` is `F64`. -/
theorem c7_witness :
    (isKind NumKind.F64 (runOps Number.empty [SetOp.setU8 1, SetOp.setF64 FVal.nan]) =
        true ↔ NumKind.F64 = NumKind.F64) ∧
      (runOps Number.empty [SetOp.setU8 1, SetOp.setF64 FVal.nan]).number_type =
        NumberType.F64 :=
  ⟨(c7_single_slot_invariant [SetOp.setU8 1, SetOp.setF64 FVal.nan]
      (List.cons_ne_nil _ _)).1 NumKind.F64,
    (c7_single_slot_invariant [SetOp.setU8 1, SetOp.setF64 FVal.nan]
      (List.cons_ne_nil _ _)).2⟩

/-- C9: the empty `Number` (all twelve slots unpopulated) reports
`is_positive() == true`: `is_signed()` and `is_zero()` are both false on it,
and `is_positive` is their joint negation — despite `is_number()` being
false. -/
theorem c9_empty_is_positive :
    Number.empty.is_signed = false ∧
      Number.empty.is_zero = false ∧
      Number.empty.is_positive = true ∧
      Number.empty.is_number = false := by
  refine ⟨rfl, rfl, rfl, rfl⟩

end Valu3
